import Mathlib

/-!
# Todo client (`01_todo/client/src/App.jsx`): the four controller operations

A shallow embedding of the `App` component's state and of its four asynchronous
handlers `fetchTodos`, `createTodo`, `markDone` and `deleteTodo`.

* The four `useState` cells are the fields of `Ctl`.
* A handler is a computation in `Js`, a state-and-exception monad over `World`;
  `try`/`catch`/`finally` of the source are the `try`/`catch`/`finally` of the monad,
  a rejected `await` is a `throw`.
* The remote service is an oracle `net : Request → FetchOutcome`, quantified over in
  every theorem: it fixes how each request settles (transport failure, or a response
  with a status and a body that may or may not parse as JSON).
* Every request is recorded in `World.sent` together with the controller state at the
  moment it was sent; every `console.error` is recorded in `World.console`.
* `render` is the JSX the component returns, as far as it can throw and as far as it
  shows the state; `Page` is the component on the page, which React unmounts when its
  render throws.
-/

namespace TodoApp

/-! ## Values -/

/-- JSON values as produced by `response.json()`. Numbers are kept as integers: the only
thing the code asks of a number is whether it is zero (`data || []`). -/
inductive Json where
  | null : Json
  | bool (b : Bool) : Json
  | num (n : Int) : Json
  | str (s : String) : Json
  | arr (xs : List Json) : Json
  | obj (fields : List (String × Json)) : Json

/-- JavaScript truthiness of a string: only `""` is falsy. -/
def strTruthy (s : String) : Bool := s != ""

/-- JavaScript truthiness of a parsed JSON value: `null`, `false`, `0` and `""` are falsy,
everything else (every array and every object included) is truthy. -/
def Json.truthy : Json → Bool
  | .null => false
  | .bool b => b
  | .num n => n != 0
  | .str s => strTruthy s
  | .arr _ => true
  | .obj _ => true

/-- The JavaScript expression `a || b`. -/
def Json.or (a b : Json) : Json := if a.truthy then a else b

/-- The value thrown by a rejected promise or a failing call. -/
inductive JsError where
  | network : JsError
  | badJson : JsError
  | typeError : JsError
  | invalidChild : JsError
  deriving DecidableEq, Repr

/-! ## The network -/

inductive Method where
  | GET | POST | PUT | DELETE
  deriving DecidableEq, Repr

/-- The arguments of a call of `fetch`. `body` is the value handed to `JSON.stringify`. -/
structure Request where
  method : Method
  url : String
  headers : List (String × String)
  body : Option Json

/-- What `fetch` resolved with: the status line, and the body as `response.json()` will
parse it (`none` when the body is not JSON, in which case `response.json()` rejects). -/
structure Response where
  status : Nat
  body : Option Json

/-- The getter `response.ok`: the status is in the range 200..299. -/
def Response.ok (r : Response) : Bool := 200 ≤ r.status && r.status ≤ 299

/-- How a request settles. -/
inductive FetchOutcome where
  | transportFailure : FetchOutcome
  | response (r : Response) : FetchOutcome

/-! ## Controller state -/

/-- The four `useState` cells of `App` (lines 6-9). -/
structure Ctl where
  todos : Json
  title : String
  date : String
  loading : Bool

/-- Initial values of the cells: `useState([])`, `useState("")`, `useState("")`,
`useState(false)`. -/
def Ctl.init : Ctl := ⟨.arr [], "", "", false⟩

/-- One call of `console.error(label, error)`. -/
structure LogEntry where
  label : String
  error : JsError
  deriving DecidableEq, Repr

/-- A request that was sent, with the controller state at the moment of sending. -/
structure Sent where
  request : Request
  during : Ctl

/-- Everything a handler can read or affect. -/
structure World where
  ctl : Ctl
  /-- requests issued so far, oldest first -/
  sent : List Sent
  /-- calls of `console.error` so far, oldest first -/
  console : List LogEntry
  /-- rejections of promises that nobody awaits -/
  unhandled : List JsError
  /-- number of calls of `e.preventDefault()` -/
  prevented : Nat

/-- A world with the given controller state and empty histories. -/
def World.fresh (c : Ctl) : World := ⟨c, [], [], [], 0⟩

/-! ## The monad of handlers -/

/-- A computation that reads and updates the world and either returns or throws. -/
def Js (α : Type) : Type := World → Except JsError α × World

instance : Monad Js where
  pure a := fun w => (.ok a, w)
  bind m f := fun w =>
    match m w with
    | (.ok a, w1) => f a w1
    | (.error e, w1) => (.error e, w1)

instance : MonadExcept JsError Js where
  throw e := fun w => (.error e, w)
  tryCatch m h := fun w =>
    match m w with
    | (.ok a, w1) => (.ok a, w1)
    | (.error e, w1) => h e w1

instance : MonadFinally Js where
  tryFinally' m f := fun w =>
    match m w with
    | (.ok a, w1) =>
      match f (some a) w1 with
      | (.ok b, w2) => (.ok (a, b), w2)
      | (.error e, w2) => (.error e, w2)
    | (.error e, w1) =>
      match f none w1 with
      | (.ok _, w2) => (.error e, w2)
      | (.error e2, w2) => (.error e2, w2)

/-! ## Primitives -/

def getCtl : Js Ctl := fun w => (.ok w.ctl, w)

def setTodos (v : Json) : Js Unit :=
  fun w => (.ok (), { w with ctl := { w.ctl with todos := v } })

def setTitle (v : String) : Js Unit :=
  fun w => (.ok (), { w with ctl := { w.ctl with title := v } })

def setDate (v : String) : Js Unit :=
  fun w => (.ok (), { w with ctl := { w.ctl with date := v } })

def setLoading (v : Bool) : Js Unit :=
  fun w => (.ok (), { w with ctl := { w.ctl with loading := v } })

/-- The call `console.error(label, error)`. -/
def consoleError (label : String) (error : JsError) : Js Unit :=
  fun w => (.ok (), { w with console := w.console ++ [⟨label, error⟩] })

/-- The call `e.preventDefault()` on the submit event. -/
def preventDefault : Js Unit :=
  fun w => (.ok (), { w with prevented := w.prevented + 1 })

/-- The expression `await fetch(...)`: the request is sent (and recorded with the
controller state of that moment), the caller is suspended until it settles, and is then
resumed with the response or with the rejection. -/
def fetch (net : Request → FetchOutcome) (req : Request) : Js Response :=
  fun w =>
    let w1 := { w with sent := w.sent ++ [⟨req, w.ctl⟩] }
    match net req with
    | .transportFailure => (.error .network, w1)
    | .response r => (.ok r, w1)

/-- The expression `await response.json()`. -/
def Response.json (r : Response) : Js Json :=
  match r.body with
  | some v => pure v
  | none => throw .badJson

/-- A call `f()` of an async function whose promise is dropped: the callee runs, and a
rejection is not seen by the caller (it would be an unhandled rejection). The callee is
run to settlement at the call site. In the source the callee sends its request at the call
and resumes after the caller has gone on; what the callers do after the call
(`setLoading(false)` in `createTodo`, nothing in `markDone` and `deleteTodo`) writes a field
the callee neither reads nor writes, so the world reached is the same in both orders. -/
def detached (m : Js Unit) : Js Unit :=
  fun w =>
    match m w with
    | (.ok _, w1) => (.ok (), w1)
    | (.error e, w1) => (.ok (), { w1 with unhandled := w1.unhandled ++ [e] })

/-! ## The handlers -/

section Handlers

variable (API_URL : String) (net : Request → FetchOutcome)

/-- The request of `fetch(API_URL)`. -/
def getRequest : Request := ⟨.GET, API_URL, [], none⟩

/-- The request of line 31-41. -/
def postRequest (title date : String) : Request :=
  ⟨.POST, API_URL, [("Content-Type", "application/json")],
    some (.obj [("title", .str title), ("date", .str date), ("done", .bool false)])⟩

/-- The request of lines 57-59; `id` is the text the template literal puts in the URL. -/
def putRequest (id : String) : Request := ⟨.PUT, API_URL ++ "/" ++ id, [], none⟩

/-- The request of lines 68-70. -/
def deleteRequest (id : String) : Request := ⟨.DELETE, API_URL ++ "/" ++ id, [], none⟩

/-- Lines 15-23. -/
def fetchTodos : Js Unit := do
  try
    let response ← fetch net (getRequest API_URL)
    let data ← response.json
    setTodos (data.or (.arr []))
  catch error =>
    consoleError "Error fetching todos:" error

/-- Lines 25-53. -/
def createTodo : Js Unit := do
  preventDefault
  let c ← getCtl
  if !strTruthy c.title || !strTruthy c.date then return
  setLoading true
  try
    let response ← fetch net (postRequest API_URL c.title c.date)
    if response.ok then
      setTitle ""
      setDate ""
      detached (fetchTodos API_URL net)
  catch error =>
    consoleError "Error creating todo:" error
  finally
    setLoading false

/-- Lines 55-64. -/
def markDone (id : String) : Js Unit := do
  try
    let _ ← fetch net (putRequest API_URL id)
    detached (fetchTodos API_URL net)
  catch error =>
    consoleError "Error marking todo as done:" error

/-- Lines 66-75. -/
def deleteTodo (id : String) : Js Unit := do
  try
    let _ ← fetch net (deleteRequest API_URL id)
    detached (fetchTodos API_URL net)
  catch error =>
    consoleError "Error deleting todo:" error

end Handlers

/-- The attribute `disabled={loading}` of the submit button (line 115). -/
def submitDisabled (c : Ctl) : Bool := c.loading



/-- The four operations the presentation layer can start: `fetchTodos()` from the mount
effect (lines 11-13), `createTodo` from the form's `onSubmit` (line 85), `markDone(todo.id)`
and `deleteTodo(todo.id)` from the two buttons of a row (lines 147 and 154). -/
inductive Op where
  | fetchAll : Op
  | createTask : Op
  | completeTask (id : String) : Op
  | deleteTask (id : String) : Op

/-- Running an operation is calling its handler. -/
def Op.run (API_URL : String) (net : Request → FetchOutcome) : Op → Js Unit
  | .fetchAll => fetchTodos API_URL net
  | .createTask => createTodo API_URL net
  | .completeTask id => markDone API_URL net id
  | .deleteTask id => deleteTodo API_URL net id

/-- The request settled with a response whose status is a success status. -/
def FetchOutcome.succeeded : FetchOutcome → Bool
  | .transportFailure => false
  | .response r => r.ok

/-- The console entries `fetchTodos` adds (line 21), by outcome of the GET. -/
def fetchLog (API_URL : String) (net : Request → FetchOutcome) : List LogEntry :=
  match net (getRequest API_URL) with
  | .transportFailure => [⟨"Error fetching todos:", .network⟩]
  | .response r =>
    match r.body with
    | none => [⟨"Error fetching todos:", .badJson⟩]
    | some _ => []

/-! ## Rendering (lines 77-166) -/

mutual
/-- Whether React accepts a value as a child, as in `{todo.title}`: text, numbers, booleans
and `null` are accepted, an array is when all its elements are, a plain object is not
("Objects are not valid as a React child"). -/
def Json.validChild : Json → Bool
  | .obj _ => false
  | .arr xs => Json.validChildren xs
  | _ => true
/-- All elements of an array child are accepted. -/
def Json.validChildren : List Json → Bool
  | [] => true
  | x :: xs => x.validChild && Json.validChildren xs
end

/-- The read `todo.key` of lines 136-154, for the keys `done`, `title`, `date` and `id`:
it throws on `null`, gives the property on an object that has it, and is `undefined`
(`none`) on everything else. -/
def Json.get (todo : Json) (key : String) : Except JsError (Option Json) :=
  match todo with
  | .null => .error .typeError
  | .obj fields => .ok (fields.lookup key)
  | _ => .ok none

/-- A value put between tags, as `{todo.title}`: `undefined` shows nothing, a value React
does not accept as a child throws. -/
def child (v : Option Json) : Except JsError (Option Json) :=
  match v with
  | none => .ok none
  | some x => if x.validChild then .ok (some x) else .error .invalidChild

/-- One row of the list (lines 129-160). -/
structure Row where
  /-- the heading is struck through: `todo.done` is truthy -/
  struck : Bool
  /-- the text of the heading, `{todo.title}` -/
  title : Option Json
  /-- the text under it, `{todo.date}` -/
  date : Option Json
  /-- the Done button is shown: `!todo.done` -/
  doneButton : Bool
  /-- the value the two buttons pass to `markDone` and `deleteTodo`, `todo.id` -/
  id : Option Json

/-- The callback of `todos.map` (lines 128-161). -/
def renderRow (todo : Json) : Except JsError Row := do
  let done ← todo.get "done"
  let title ← todo.get "title"
  let date ← todo.get "date"
  let id ← todo.get "id"
  let isDone := match done with
    | some d => d.truthy
    | none => false
  let titleChild ← child title
  let dateChild ← child date
  pure ⟨isDone, titleChild, dateChild, !isDone, id⟩

/-- The list part of the page. -/
inductive ListView where
  | noTodos : ListView
  | rows (rs : List Row) : ListView

/-- Lines 123-162: `todos.length === 0 ? <p>No todos yet…</p> : todos.map(…)`.
On an array, `length` is its length and `map` maps. On `null`, reading `length` throws.
On an object, `length` is its property of that name, and `map` is never a function. On a
string, `length` is zero only for `""`, and there is no `map`. On a number or a boolean,
`length` is `undefined` and there is no `map`. -/
def renderList (todos : Json) : Except JsError ListView :=
  match todos with
  | .arr [] => .ok .noTodos
  | .arr xs => (xs.mapM renderRow).map .rows
  | .null => .error .typeError
  | .obj fields =>
    match fields.lookup "length" with
    | some (.num 0) => .ok .noTodos
    | _ => .error .typeError
  | .str s => if s = "" then .ok .noTodos else .error .typeError
  | .bool _ => .error .typeError
  | .num _ => .error .typeError

/-- What `App` returns (lines 77-166): the two inputs, the submit button, the list. -/
structure View where
  titleValue : String
  dateValue : String
  submitDisabled : Bool
  submitLabel : String
  list : ListView

/-- The body of `App` after the hooks: it throws when the list part throws. -/
def render (c : Ctl) : Except JsError View := do
  let list ← renderList c.todos
  pure ⟨c.title, c.date, submitDisabled c, if c.loading then "Adding..." else "Add Todo", list⟩

/-- The component on the page. React calls `render` again after the state has changed;
`App` has no error boundary around it, so a render that throws unmounts it: nothing is
shown any more, and no handler can be started. -/
structure Page where
  world : World
  mounted : Bool

/-- React commits the state a handler left: the component stays mounted exactly when its
render returns. -/
def Page.commit (w : World) : Page := ⟨w, (render w.ctl).isOk⟩

/-- An operation is started from the page, by the user or by the mount effect. On a
mounted component its handler runs and the state it leaves is rendered; on an unmounted
one there is nothing to start it from, and nothing happens. -/
def Page.start (API_URL : String) (net : Request → FetchOutcome) (op : Op) (p : Page) : Page :=
  if p.mounted then Page.commit (op.run API_URL net p.world).2 else p

/-! ## Concrete inputs -/

/-- A service that settles every request the same way. -/
def netAlways (o : FetchOutcome) : Request → FetchOutcome := fun _ => o

/-- A service that answers every GET with `get` and every other request with `other`. -/
def netByMethod (get other : FetchOutcome) : Request → FetchOutcome :=
  fun req => match req.method with
    | .GET => get
    | _ => other

/-- A task as the service returns it. -/
def taskJson (id : Int) (title date : String) (done : Bool) : Json :=
  .obj [("id", .num id), ("title", .str title), ("date", .str date), ("done", .bool done)]

/-- A fresh controller whose draft is filled in and whose list holds one task. -/
def milkWorld : World :=
  World.fresh ⟨.arr [taskJson 1 "Pay rent" "2024-03-01" false], "Buy milk", "2024-05-01", false⟩

/-! ## How each handler runs, by outcome of its requests -/

theorem fetchTodos_run (API_URL : String) (net : Request → FetchOutcome) (w : World) :
    fetchTodos API_URL net w =
      match net (getRequest API_URL) with
      | .transportFailure =>
        (.ok (), { w with sent := w.sent ++ [⟨getRequest API_URL, w.ctl⟩],
                          console := w.console ++ [⟨"Error fetching todos:", .network⟩] })
      | .response r =>
        match r.body with
        | none =>
          (.ok (), { w with sent := w.sent ++ [⟨getRequest API_URL, w.ctl⟩],
                            console := w.console ++ [⟨"Error fetching todos:", .badJson⟩] })
        | some v =>
          (.ok (), { w with sent := w.sent ++ [⟨getRequest API_URL, w.ctl⟩],
                            ctl := { w.ctl with todos := v.or (.arr []) } }) := by
  unfold fetchTodos
  cases h : net (getRequest API_URL) with
  | transportFailure =>
    simp [tryCatch, tryCatchThe, MonadExceptOf.tryCatch, MonadExcept.tryCatch, bind, fetch, h, consoleError]
  | response r =>
    cases hb : r.body with
    | none =>
      simp [tryCatch, tryCatchThe, MonadExceptOf.tryCatch, MonadExcept.tryCatch, bind, fetch, h, hb, consoleError, Response.json, throw, throwThe, MonadExceptOf.throw, MonadExcept.throw]
    | some v =>
      simp [tryCatch, tryCatchThe, MonadExceptOf.tryCatch, MonadExcept.tryCatch, bind, fetch, h, hb, consoleError, Response.json, pure, setTodos]

theorem fetchTodos_ok (API_URL : String) (net : Request → FetchOutcome) (w : World) :
    (fetchTodos API_URL net w).1 = .ok () := by
  rw [fetchTodos_run]
  cases net (getRequest API_URL) with
  | transportFailure => rfl
  | response r => cases hb : r.body <;> simp [hb]

/-! What `fetchTodos` does to each part of the world. -/

theorem fetchTodos_title (API_URL : String) (net : Request → FetchOutcome) (w : World) :
    (fetchTodos API_URL net w).2.ctl.title = w.ctl.title := by
  rw [fetchTodos_run]
  cases net (getRequest API_URL) with
  | transportFailure => rfl
  | response r => cases hb : r.body <;> simp [hb]

theorem fetchTodos_date (API_URL : String) (net : Request → FetchOutcome) (w : World) :
    (fetchTodos API_URL net w).2.ctl.date = w.ctl.date := by
  rw [fetchTodos_run]
  cases net (getRequest API_URL) with
  | transportFailure => rfl
  | response r => cases hb : r.body <;> simp [hb]

theorem fetchTodos_loading (API_URL : String) (net : Request → FetchOutcome) (w : World) :
    (fetchTodos API_URL net w).2.ctl.loading = w.ctl.loading := by
  rw [fetchTodos_run]
  cases net (getRequest API_URL) with
  | transportFailure => rfl
  | response r => cases hb : r.body <;> simp [hb]

theorem fetchTodos_unhandled (API_URL : String) (net : Request → FetchOutcome) (w : World) :
    (fetchTodos API_URL net w).2.unhandled = w.unhandled := by
  rw [fetchTodos_run]
  cases net (getRequest API_URL) with
  | transportFailure => rfl
  | response r => cases hb : r.body <;> simp [hb]

theorem fetchTodos_prevented (API_URL : String) (net : Request → FetchOutcome) (w : World) :
    (fetchTodos API_URL net w).2.prevented = w.prevented := by
  rw [fetchTodos_run]
  cases net (getRequest API_URL) with
  | transportFailure => rfl
  | response r => cases hb : r.body <;> simp [hb]

theorem fetchTodos_sent (API_URL : String) (net : Request → FetchOutcome) (w : World) :
    (fetchTodos API_URL net w).2.sent = w.sent ++ [⟨getRequest API_URL, w.ctl⟩] := by
  rw [fetchTodos_run]
  cases net (getRequest API_URL) with
  | transportFailure => rfl
  | response r => cases hb : r.body <;> simp [hb]

theorem fetchTodos_todos (API_URL : String) (net : Request → FetchOutcome) (w : World) :
    (fetchTodos API_URL net w).2.ctl.todos =
      match net (getRequest API_URL) with
      | .transportFailure => w.ctl.todos
      | .response r =>
        match r.body with
        | none => w.ctl.todos
        | some v => v.or (.arr []) := by
  rw [fetchTodos_run]
  cases net (getRequest API_URL) with
  | transportFailure => rfl
  | response r => cases hb : r.body <;> simp [hb]

theorem fetchTodos_console (API_URL : String) (net : Request → FetchOutcome) (w : World) :
    (fetchTodos API_URL net w).2.console =
      match net (getRequest API_URL) with
      | .transportFailure => w.console ++ [⟨"Error fetching todos:", .network⟩]
      | .response r =>
        match r.body with
        | none => w.console ++ [⟨"Error fetching todos:", .badJson⟩]
        | some _ => w.console := by
  rw [fetchTodos_run]
  cases net (getRequest API_URL) with
  | transportFailure => rfl
  | response r => cases hb : r.body <;> simp [hb]

theorem detached_fetchTodos (API_URL : String) (net : Request → FetchOutcome) (w : World) :
    detached (fetchTodos API_URL net) w = (.ok (), (fetchTodos API_URL net w).2) := by
  have h := fetchTodos_ok API_URL net w
  unfold detached
  cases hr : fetchTodos API_URL net w with
  | mk a w1 =>
    rw [hr] at h
    simp only at h
    subst h
    rfl

theorem createTodo_run (API_URL : String) (net : Request → FetchOutcome) (w : World) :
    createTodo API_URL net w =
      if w.ctl.title = "" ∨ w.ctl.date = "" then
        (.ok (), { w with prevented := w.prevented + 1 })
      else
        let w1 : World :=
          { w with prevented := w.prevented + 1,
                   sent := w.sent ++
                     [⟨postRequest API_URL w.ctl.title w.ctl.date, { w.ctl with loading := true }⟩],
                   ctl := { w.ctl with loading := true } }
        match net (postRequest API_URL w.ctl.title w.ctl.date) with
        | .transportFailure =>
          (.ok (), { w1 with console := w1.console ++ [⟨"Error creating todo:", .network⟩],
                             ctl := { w1.ctl with loading := false } })
        | .response r =>
          if r.ok then
            let w2 := (fetchTodos API_URL net
              { w1 with ctl := { w1.ctl with title := "", date := "" } }).2
            (.ok (), { w2 with ctl := { w2.ctl with loading := false } })
          else
            (.ok (), { w1 with ctl := { w1.ctl with loading := false } }) := by
  unfold createTodo
  by_cases ht : w.ctl.title = ""
  · simp [ht, bind, preventDefault, getCtl, strTruthy, pure]
  · by_cases hd : w.ctl.date = ""
    · simp [hd, bind, preventDefault, getCtl, strTruthy, pure]
    · cases h : net (postRequest API_URL w.ctl.title w.ctl.date) with
      | transportFailure =>
        simp [ht, hd, h, bind, preventDefault, getCtl, strTruthy, pure, setLoading, fetch,
          tryCatch, tryCatchThe, MonadExceptOf.tryCatch, MonadExcept.tryCatch, tryFinally,
          MonadFinally.tryFinally', consoleError, Functor.map]
      | response r =>
        by_cases hok : r.ok = true
        · simp [ht, hd, h, hok, bind, preventDefault, getCtl, strTruthy, pure, setLoading, fetch,
            tryCatch, tryCatchThe, MonadExceptOf.tryCatch, MonadExcept.tryCatch, tryFinally,
            MonadFinally.tryFinally', consoleError, Functor.map, setTitle, setDate,
            detached_fetchTodos]
        · simp [ht, hd, h, hok, bind, preventDefault, getCtl, strTruthy, pure, setLoading, fetch,
            tryCatch, tryCatchThe, MonadExceptOf.tryCatch, MonadExcept.tryCatch, tryFinally,
            MonadFinally.tryFinally', consoleError, Functor.map, setTitle, setDate]

theorem markDone_run (API_URL : String) (net : Request → FetchOutcome) (id : String)
    (w : World) :
    markDone API_URL net id w =
      match net (putRequest API_URL id) with
      | .transportFailure =>
        (.ok (), { w with sent := w.sent ++ [⟨putRequest API_URL id, w.ctl⟩],
                          console := w.console ++ [⟨"Error marking todo as done:", .network⟩] })
      | .response _ =>
        fetchTodos API_URL net { w with sent := w.sent ++ [⟨putRequest API_URL id, w.ctl⟩] } := by
  unfold markDone
  cases h : net (putRequest API_URL id) with
  | transportFailure =>
    simp [h, bind, fetch, tryCatch, tryCatchThe, MonadExceptOf.tryCatch, MonadExcept.tryCatch,
      consoleError]
  | response r =>
    simp [h, bind, fetch, tryCatch, tryCatchThe, MonadExceptOf.tryCatch, MonadExcept.tryCatch,
      consoleError, detached_fetchTodos]
    exact Prod.ext (fetchTodos_ok _ _ _).symm rfl

theorem deleteTodo_run (API_URL : String) (net : Request → FetchOutcome) (id : String)
    (w : World) :
    deleteTodo API_URL net id w =
      match net (deleteRequest API_URL id) with
      | .transportFailure =>
        (.ok (), { w with sent := w.sent ++ [⟨deleteRequest API_URL id, w.ctl⟩],
                          console := w.console ++ [⟨"Error deleting todo:", .network⟩] })
      | .response _ =>
        fetchTodos API_URL net
          { w with sent := w.sent ++ [⟨deleteRequest API_URL id, w.ctl⟩] } := by
  unfold deleteTodo
  cases h : net (deleteRequest API_URL id) with
  | transportFailure =>
    simp [h, bind, fetch, tryCatch, tryCatchThe, MonadExceptOf.tryCatch, MonadExcept.tryCatch,
      consoleError]
  | response r =>
    simp [h, bind, fetch, tryCatch, tryCatchThe, MonadExceptOf.tryCatch, MonadExcept.tryCatch,
      consoleError, detached_fetchTodos]
    exact Prod.ext (fetchTodos_ok _ _ _).symm rfl

/-! What an operation does to the list: nothing, or what `fetchTodos` does. -/

theorem run_todos_cases (API_URL : String) (net : Request → FetchOutcome) (op : Op)
    (w : World) :
    (op.run API_URL net w).2.ctl.todos = w.ctl.todos ∨
    ((op.run API_URL net w).2.ctl.todos = (fetchTodos API_URL net w).2.ctl.todos ∧
      getRequest API_URL ∈
        ((op.run API_URL net w).2.sent.drop w.sent.length).map Sent.request) := by
  cases op with
  | fetchAll =>
    right
    refine ⟨rfl, ?_⟩
    simp [Op.run, fetchTodos_sent]
  | createTask =>
    simp only [Op.run]
    rw [createTodo_run]
    by_cases he : w.ctl.title = "" ∨ w.ctl.date = ""
    · simp [he]
    · cases hp : net (postRequest API_URL w.ctl.title w.ctl.date) with
      | transportFailure => simp [he]
      | response r =>
        by_cases hok : r.ok = true
        · right
          simp [he, hok, fetchTodos_todos, fetchTodos_sent]
        · simp [he, hok]
  | completeTask id =>
    simp only [Op.run]
    rw [markDone_run]
    cases hp : net (putRequest API_URL id) with
    | transportFailure => simp
    | response r =>
      right
      simp [fetchTodos_todos, fetchTodos_sent]
  | deleteTask id =>
    simp only [Op.run]
    rw [deleteTodo_run]
    cases hp : net (deleteRequest API_URL id) with
    | transportFailure => simp
    | response r =>
      right
      simp [fetchTodos_todos, fetchTodos_sent]

/-! `fetchTodos` reads nothing of the world: what it sends, logs and installs is fixed
by the service. -/

theorem fetchTodos_console_append (API_URL : String) (net : Request → FetchOutcome)
    (w : World) :
    (fetchTodos API_URL net w).2.console = w.console ++ fetchLog API_URL net := by
  rw [fetchTodos_console, fetchLog]
  cases net (getRequest API_URL) with
  | transportFailure => rfl
  | response r => cases hb : r.body <;> simp [hb]

/-! Rendering looks at the list only. -/

theorem render_isOk (c : Ctl) : (render c).isOk = (renderList c.todos).isOk := by
  unfold render
  cases renderList c.todos <;> rfl

theorem getRequest_ne_postRequest (API_URL title date : String) :
    getRequest API_URL ≠ postRequest API_URL title date := by
  intro h
  have hm := congrArg Request.method h
  cases hm

theorem getRequest_ne_putRequest (API_URL id : String) :
    getRequest API_URL ≠ putRequest API_URL id := by
  intro h
  have hm := congrArg Request.method h
  cases hm

theorem getRequest_ne_deleteRequest (API_URL id : String) :
    getRequest API_URL ≠ deleteRequest API_URL id := by
  intro h
  have hm := congrArg Request.method h
  cases hm

/-- When an operation has sent a GET, the list it leaves is the one `fetchTodos` leaves. -/
theorem run_todos_of_get_sent (API_URL : String) (net : Request → FetchOutcome) (op : Op)
    (w : World)
    (h : getRequest API_URL ∈
      ((op.run API_URL net w).2.sent.drop w.sent.length).map Sent.request) :
    (op.run API_URL net w).2.ctl.todos = (fetchTodos API_URL net w).2.ctl.todos := by
  cases op with
  | fetchAll => rfl
  | createTask =>
    simp only [Op.run] at h ⊢
    rw [createTodo_run] at h ⊢
    by_cases he : w.ctl.title = "" ∨ w.ctl.date = ""
    · simp [he] at h
    · cases hp : net (postRequest API_URL w.ctl.title w.ctl.date) with
      | transportFailure =>
        simp [he, hp, getRequest_ne_postRequest] at h
      | response r =>
        by_cases hok : r.ok = true
        · simp [he, hok, fetchTodos_todos]
        · simp [he, hp, hok, getRequest_ne_postRequest] at h
  | completeTask id =>
    simp only [Op.run] at h ⊢
    rw [markDone_run] at h ⊢
    cases hp : net (putRequest API_URL id) with
    | transportFailure => simp [hp, getRequest_ne_putRequest] at h
    | response r => simp [fetchTodos_todos]
  | deleteTask id =>
    simp only [Op.run] at h ⊢
    rw [deleteTodo_run] at h ⊢
    cases hp : net (deleteRequest API_URL id) with
    | transportFailure => simp [hp, getRequest_ne_deleteRequest] at h
    | response r => simp [fetchTodos_todos]

/-- No operation throws, and none leaves an unhandled rejection behind. -/
theorem run_ok (API_URL : String) (net : Request → FetchOutcome) (op : Op) (w : World) :
    (op.run API_URL net w).1 = .ok () ∧ (op.run API_URL net w).2.unhandled = w.unhandled := by
  cases op with
  | fetchAll => exact ⟨fetchTodos_ok _ _ _, fetchTodos_unhandled _ _ _⟩
  | createTask =>
    simp only [Op.run]
    rw [createTodo_run]
    by_cases he : w.ctl.title = "" ∨ w.ctl.date = ""
    · simp [he]
    · cases hp : net (postRequest API_URL w.ctl.title w.ctl.date) with
      | transportFailure => simp [he]
      | response r =>
        by_cases hok : r.ok = true
        · simp [he, hok, fetchTodos_unhandled]
        · simp [he, hok]
  | completeTask id =>
    simp only [Op.run]
    rw [markDone_run]
    cases hp : net (putRequest API_URL id) with
    | transportFailure => simp
    | response r => exact ⟨fetchTodos_ok _ _ _, fetchTodos_unhandled _ _ _⟩
  | deleteTask id =>
    simp only [Op.run]
    rw [deleteTodo_run]
    cases hp : net (deleteRequest API_URL id) with
    | transportFailure => simp
    | response r => exact ⟨fetchTodos_ok _ _ _, fetchTodos_unhandled _ _ _⟩

/-! ## createTodo: the draft -/

/-- C1. When the draft title and date are both non-empty, `createTodo` settles normally and
afterwards title and date are both empty exactly when the POST came back with a success
status; after a transport failure or a non-success status both are what they were. -/
theorem createTodo_clears_draft_iff_post_succeeded (API_URL : String)
    (net : Request → FetchOutcome) (w : World)
    (ht : w.ctl.title ≠ "") (hd : w.ctl.date ≠ "") :
    (createTodo API_URL net w).1 = .ok () ∧
    (((createTodo API_URL net w).2.ctl.title = "" ∧ (createTodo API_URL net w).2.ctl.date = "") ↔
      (net (postRequest API_URL w.ctl.title w.ctl.date)).succeeded = true) ∧
    ((net (postRequest API_URL w.ctl.title w.ctl.date)).succeeded = false →
      (createTodo API_URL net w).2.ctl.title = w.ctl.title ∧
      (createTodo API_URL net w).2.ctl.date = w.ctl.date) := by
  rw [createTodo_run]
  cases h : net (postRequest API_URL w.ctl.title w.ctl.date) with
  | transportFailure => simp [ht, hd, FetchOutcome.succeeded]
  | response r =>
    by_cases hok : r.ok = true
    · simp [ht, hd, hok, FetchOutcome.succeeded, fetchTodos_title, fetchTodos_date]
    · simp [ht, hd, hok, FetchOutcome.succeeded]

/-- C1 at the draft "Buy milk" / "2024-05-01" with a service that answers 201. -/
theorem createTodo_clears_draft_iff_post_succeeded_witness :
    (milkWorld.ctl.title ≠ "" ∧ milkWorld.ctl.date ≠ "") ∧
    ((createTodo "http://api" (netAlways (.response ⟨201, some (.arr [])⟩)) milkWorld).1 = .ok () ∧
     (((createTodo "http://api" (netAlways (.response ⟨201, some (.arr [])⟩)) milkWorld).2.ctl.title = "" ∧
       (createTodo "http://api" (netAlways (.response ⟨201, some (.arr [])⟩)) milkWorld).2.ctl.date = "") ↔
      (netAlways (.response ⟨201, some (.arr [])⟩)
        (postRequest "http://api" milkWorld.ctl.title milkWorld.ctl.date)).succeeded = true) ∧
     ((netAlways (.response ⟨201, some (.arr [])⟩)
        (postRequest "http://api" milkWorld.ctl.title milkWorld.ctl.date)).succeeded = false →
      (createTodo "http://api" (netAlways (.response ⟨201, some (.arr [])⟩)) milkWorld).2.ctl.title =
        milkWorld.ctl.title ∧
      (createTodo "http://api" (netAlways (.response ⟨201, some (.arr [])⟩)) milkWorld).2.ctl.date =
        milkWorld.ctl.date)) :=
  ⟨⟨by decide, by decide⟩,
    createTodo_clears_draft_iff_post_succeeded "http://api" _ milkWorld (by decide) (by decide)⟩

/-- C2. When the draft title or the draft date is empty, `createTodo` returns at once: no
request is sent (neither POST nor GET), the controller state (list, draft and loading flag)
is what it was, and nothing is logged. -/
theorem createTodo_empty_draft_is_noop (API_URL : String) (net : Request → FetchOutcome)
    (w : World) (h : w.ctl.title = "" ∨ w.ctl.date = "") :
    (createTodo API_URL net w).1 = .ok () ∧
    (createTodo API_URL net w).2.sent = w.sent ∧
    (createTodo API_URL net w).2.ctl = w.ctl ∧
    (createTodo API_URL net w).2.console = w.console := by
  rw [createTodo_run]
  simp [h]

/-- C2 at the two drafts `("", "2024-01-01")` and `("X", "")`, against a service that
would accept the task. -/
theorem createTodo_empty_draft_is_noop_witness :
    ((("" : String) = "" ∨ "2024-01-01" = "") ∧
      (createTodo "http://api" (netAlways (.response ⟨201, some .null⟩))
        (World.fresh ⟨.arr [], "", "2024-01-01", false⟩)).2.sent = [] ∧
      (createTodo "http://api" (netAlways (.response ⟨201, some .null⟩))
        (World.fresh ⟨.arr [], "", "2024-01-01", false⟩)).2.ctl =
          ⟨.arr [], "", "2024-01-01", false⟩) ∧
    (("X" = "" ∨ ("" : String) = "") ∧
      (createTodo "http://api" (netAlways (.response ⟨201, some .null⟩))
        (World.fresh ⟨.arr [], "X", "", false⟩)).2.sent = [] ∧
      (createTodo "http://api" (netAlways (.response ⟨201, some .null⟩))
        (World.fresh ⟨.arr [], "X", "", false⟩)).2.ctl = ⟨.arr [], "X", "", false⟩) :=
  ⟨⟨Or.inl rfl,
      (createTodo_empty_draft_is_noop "http://api" _
        (World.fresh ⟨.arr [], "", "2024-01-01", false⟩) (Or.inl rfl)).2.1,
      (createTodo_empty_draft_is_noop "http://api" _
        (World.fresh ⟨.arr [], "", "2024-01-01", false⟩) (Or.inl rfl)).2.2.1⟩,
    ⟨Or.inr rfl,
      (createTodo_empty_draft_is_noop "http://api" _
        (World.fresh ⟨.arr [], "X", "", false⟩) (Or.inr rfl)).2.1,
      (createTodo_empty_draft_is_noop "http://api" _
        (World.fresh ⟨.arr [], "X", "", false⟩) (Or.inr rfl)).2.2.1⟩⟩

/-- C5. With a non-empty draft, when the POST fails in transport or comes back with a
non-success status, `createTodo` sends that POST and nothing else (no GET), and the list,
the draft title and the draft date are what they were. -/
theorem createTodo_failure_keeps_state (API_URL : String) (net : Request → FetchOutcome)
    (w : World) (ht : w.ctl.title ≠ "") (hd : w.ctl.date ≠ "")
    (hfail : (net (postRequest API_URL w.ctl.title w.ctl.date)).succeeded = false) :
    (createTodo API_URL net w).1 = .ok () ∧
    (createTodo API_URL net w).2.sent.map Sent.request =
      w.sent.map Sent.request ++ [postRequest API_URL w.ctl.title w.ctl.date] ∧
    (createTodo API_URL net w).2.ctl.todos = w.ctl.todos ∧
    (createTodo API_URL net w).2.ctl.title = w.ctl.title ∧
    (createTodo API_URL net w).2.ctl.date = w.ctl.date := by
  rw [createTodo_run]
  cases h : net (postRequest API_URL w.ctl.title w.ctl.date) with
  | transportFailure => simp [ht, hd]
  | response r =>
    have hok : r.ok = false := by simpa [h, FetchOutcome.succeeded] using hfail
    simp [ht, hd, hok]

/-- C5 at the draft "Buy milk" / "2024-05-01" with a service that answers 500. -/
theorem createTodo_failure_keeps_state_witness :
    (milkWorld.ctl.title ≠ "" ∧ milkWorld.ctl.date ≠ "" ∧
      (netAlways (.response ⟨500, some (.arr [])⟩)
        (postRequest "http://api" milkWorld.ctl.title milkWorld.ctl.date)).succeeded = false) ∧
    (createTodo "http://api" (netAlways (.response ⟨500, some (.arr [])⟩)) milkWorld).2.sent.map
        Sent.request = [postRequest "http://api" "Buy milk" "2024-05-01"] ∧
    (createTodo "http://api" (netAlways (.response ⟨500, some (.arr [])⟩)) milkWorld).2.ctl.todos =
      .arr [taskJson 1 "Pay rent" "2024-03-01" false] ∧
    (createTodo "http://api" (netAlways (.response ⟨500, some (.arr [])⟩)) milkWorld).2.ctl.title =
      "Buy milk" ∧
    (createTodo "http://api" (netAlways (.response ⟨500, some (.arr [])⟩)) milkWorld).2.ctl.date =
      "2024-05-01" :=
  ⟨⟨by decide, by decide, by decide⟩,
    (createTodo_failure_keeps_state "http://api" _ milkWorld (by decide) (by decide)
      (by decide)).2⟩

/-! ## fetchTodos: the list -/

/-- C4. When the GET comes back with a body that parses to an array `xs`, the list after
`fetchTodos` is exactly `xs` (same elements, same order, nothing of the old list); when the
body parses to `null` the list is the empty array. In both cases `fetchTodos` returns
normally and logs nothing. `payload` is `some xs` for the array and `none` for `null`; the
status is arbitrary. -/
theorem fetchTodos_installs_payload (API_URL : String) (net : Request → FetchOutcome)
    (w : World) (status : Nat) (payload : Option (List Json))
    (h : net (getRequest API_URL) =
      .response ⟨status, some (match payload with | some xs => .arr xs | none => .null)⟩) :
    (fetchTodos API_URL net w).1 = .ok () ∧
    (fetchTodos API_URL net w).2.ctl.todos = .arr (payload.getD []) ∧
    (fetchTodos API_URL net w).2.console = w.console ∧
    (fetchTodos API_URL net w).2.unhandled = w.unhandled := by
  refine ⟨fetchTodos_ok _ _ _, ?_, ?_, fetchTodos_unhandled _ _ _⟩
  · rw [fetchTodos_todos, h]
    cases payload <;> simp [Json.or, Json.truthy]
  · rw [fetchTodos_console, h]

/-- C4 at a two-element array, and at `null`. -/
theorem fetchTodos_installs_payload_witness :
    (fetchTodos "http://api"
      (netAlways (.response ⟨200, some (.arr [taskJson 2 "b" "2024-01-02" true,
        taskJson 1 "a" "2024-01-01" false])⟩)) milkWorld).2.ctl.todos =
      .arr [taskJson 2 "b" "2024-01-02" true, taskJson 1 "a" "2024-01-01" false] ∧
    (fetchTodos "http://api" (netAlways (.response ⟨200, some .null⟩)) milkWorld).2.ctl.todos =
      .arr [] :=
  ⟨(fetchTodos_installs_payload "http://api" _ milkWorld 200
      (some [taskJson 2 "b" "2024-01-02" true, taskJson 1 "a" "2024-01-01" false]) rfl).2.1,
    (fetchTodos_installs_payload "http://api" _ milkWorld 200 none rfl).2.1⟩

/-- C3, as stated, fails: a body that parses to a number or to an object is not rejected,
it replaces the list. From a list holding one task, a 200 response whose body is `7`
leaves `7` as the list, and one whose body is `{"error": "boom"}` leaves that object. -/
theorem fetchTodos_wrong_shape_replaces_list :
    ((fetchTodos "http://api" (netAlways (.response ⟨200, some (.num 7)⟩)) milkWorld).2.ctl.todos =
        .num 7 ∧
      (fetchTodos "http://api" (netAlways (.response ⟨200, some (.num 7)⟩)) milkWorld).2.ctl.todos ≠
        milkWorld.ctl.todos) ∧
    ((fetchTodos "http://api"
        (netAlways (.response ⟨200, some (.obj [("error", .str "boom")])⟩)) milkWorld).2.ctl.todos =
        .obj [("error", .str "boom")] ∧
      (fetchTodos "http://api"
        (netAlways (.response ⟨200, some (.obj [("error", .str "boom")])⟩)) milkWorld).2.ctl.todos ≠
        milkWorld.ctl.todos) := by
  refine ⟨⟨rfl, ?_⟩, ⟨rfl, ?_⟩⟩
  · intro h
    cases h
  · intro h
    cases h

/-- C3, amended. After a transport failure of the GET, and after a body that does not parse
as JSON, the whole controller state is what it was before `fetchTodos`. A body that parses
is installed whatever its shape: the parsed value itself when it is truthy (any array, any
object, a non-zero number, a non-empty string, `true`), the empty array when it is falsy
(`null`, `false`, `0`, `""`). -/
theorem fetchTodos_list_by_outcome (API_URL : String) (net : Request → FetchOutcome)
    (w : World) :
    match net (getRequest API_URL) with
    | .transportFailure => (fetchTodos API_URL net w).2.ctl = w.ctl
    | .response r =>
      match r.body with
      | none => (fetchTodos API_URL net w).2.ctl = w.ctl
      | some v =>
        (fetchTodos API_URL net w).2.ctl.todos = (if v.truthy then v else .arr []) := by
  rw [fetchTodos_run]
  cases net (getRequest API_URL) with
  | transportFailure => rfl
  | response r => cases hb : r.body <;> simp [hb, Json.or]

/-! ## markDone and deleteTodo: the refresh -/

/-- C6, as stated, fails at a transport failure: when the PUT is rejected, control goes to
the `catch` block and `fetchTodos` is not called. The only request sent is the PUT, and the
list is untouched. The same holds for `deleteTodo`. -/
theorem markDone_transport_failure_skips_refresh :
    (markDone "http://api" (netAlways .transportFailure) "1" milkWorld).2.sent.map Sent.request =
      [putRequest "http://api" "1"] ∧
    (markDone "http://api" (netAlways .transportFailure) "1" milkWorld).2.console =
      [⟨"Error marking todo as done:", .network⟩] ∧
    (deleteTodo "http://api" (netAlways .transportFailure) "1" milkWorld).2.sent.map Sent.request =
      [deleteRequest "http://api" "1"] ∧
    (deleteTodo "http://api" (netAlways .transportFailure) "1" milkWorld).2.console =
      [⟨"Error deleting todo:", .network⟩] :=
  ⟨rfl, rfl, rfl, rfl⟩

/-- C6, amended. `markDone id` sends `PUT <base>/<id>` and `deleteTodo id` sends
`DELETE <base>/<id>`. When that request settles with a response, of whatever status, the
handler goes on exactly as `fetchTodos` does from there: the status is never looked at.
When that request fails in transport, the handler logs the failure and sends no GET. -/
theorem markDone_deleteTodo_by_outcome (API_URL : String) (net : Request → FetchOutcome)
    (id : String) (w : World) :
    ((putRequest API_URL id).method = .PUT ∧ (putRequest API_URL id).url = API_URL ++ "/" ++ id ∧
      markDone API_URL net id w =
        match net (putRequest API_URL id) with
        | .transportFailure =>
          (.ok (), { w with sent := w.sent ++ [⟨putRequest API_URL id, w.ctl⟩],
                            console := w.console ++ [⟨"Error marking todo as done:", .network⟩] })
        | .response _ =>
          fetchTodos API_URL net { w with sent := w.sent ++ [⟨putRequest API_URL id, w.ctl⟩] }) ∧
    ((deleteRequest API_URL id).method = .DELETE ∧
      (deleteRequest API_URL id).url = API_URL ++ "/" ++ id ∧
      deleteTodo API_URL net id w =
        match net (deleteRequest API_URL id) with
        | .transportFailure =>
          (.ok (), { w with sent := w.sent ++ [⟨deleteRequest API_URL id, w.ctl⟩],
                            console := w.console ++ [⟨"Error deleting todo:", .network⟩] })
        | .response _ =>
          fetchTodos API_URL net
            { w with sent := w.sent ++ [⟨deleteRequest API_URL id, w.ctl⟩] }) :=
  ⟨⟨rfl, rfl, markDone_run API_URL net id w⟩, ⟨rfl, rfl, deleteTodo_run API_URL net id w⟩⟩

/-! ## The list across all four operations -/

/-- C7, as stated, fails: `fetchTodos` never looks at the status of the GET. A 500 response
whose body is `[]` empties a list that held one task. -/
theorem fetchTodos_non_success_status_replaces_list :
    Response.ok ⟨500, some (.arr [])⟩ = false ∧
    (fetchTodos "http://api" (netAlways (.response ⟨500, some (.arr [])⟩)) milkWorld).2.ctl.todos =
      .arr [] ∧
    (fetchTodos "http://api" (netAlways (.response ⟨500, some (.arr [])⟩)) milkWorld).2.ctl.todos ≠
      milkWorld.ctl.todos := by
  refine ⟨by decide, rfl, ?_⟩
  intro h
  cases h

/-- C7, amended. For each of the four operations: if the GET fails in transport or its body
does not parse as JSON, the list is what it was before the operation; otherwise the list is
either what it was, or a GET was sent during the operation and the list is the whole parsed
body of its response (the empty array when that value is falsy), whatever the status of the
response and whatever the shape of the body. -/
theorem todos_change_only_by_parsed_get (API_URL : String) (net : Request → FetchOutcome)
    (op : Op) (w : World) :
    match net (getRequest API_URL) with
    | .transportFailure => (op.run API_URL net w).2.ctl.todos = w.ctl.todos
    | .response r =>
      match r.body with
      | none => (op.run API_URL net w).2.ctl.todos = w.ctl.todos
      | some v =>
        (op.run API_URL net w).2.ctl.todos = w.ctl.todos ∨
        ((op.run API_URL net w).2.ctl.todos = v.or (.arr []) ∧
          getRequest API_URL ∈
            ((op.run API_URL net w).2.sent.drop w.sent.length).map Sent.request) := by
  have h := run_todos_cases API_URL net op w
  rw [fetchTodos_todos] at h
  cases hn : net (getRequest API_URL) with
  | transportFailure =>
    simp only [hn] at h ⊢
    exact h.elim id (fun h2 => h2.1)
  | response r =>
    cases hb : r.body with
    | none =>
      simp only [hn, hb] at h ⊢
      exact h.elim id (fun h2 => h2.1)
    | some v =>
      simp only [hn, hb] at h ⊢
      exact h

/-! ## The console -/

/-- C8, as stated, fails: `createTodo` has no branch for a response that is not `ok`. With
the draft "Buy milk" / "2024-05-01" and a POST answered with status 500, it logs nothing. -/
theorem createTodo_non_success_status_not_logged :
    (netAlways (.response ⟨500, some (.obj [("error", .str "boom")])⟩)
      (postRequest "http://api" milkWorld.ctl.title milkWorld.ctl.date)).succeeded = false ∧
    milkWorld.console = [] ∧
    (createTodo "http://api" (netAlways (.response ⟨500, some (.obj [("error", .str "boom")])⟩))
      milkWorld).2.console = [] :=
  ⟨by decide, rfl, rfl⟩

/-- C8, amended. What each handler adds to the console, by outcome of its requests.
A transport failure of the request the handler awaits (GET, POST, PUT, DELETE) adds one
entry, and so does a GET body that does not parse as JSON, also when the GET is the refresh
started by `createTodo`, `markDone` or `deleteTodo`. Nothing else adds an entry: a POST
answered with a non-success status is not logged, the status of a GET, PUT or DELETE is
never looked at, and a GET body that parses is not logged whatever its shape. -/
theorem console_by_outcome (API_URL : String) (net : Request → FetchOutcome) (id : String)
    (w : World) :
    ((fetchTodos API_URL net w).2.console =
      match net (getRequest API_URL) with
      | .transportFailure => w.console ++ [⟨"Error fetching todos:", .network⟩]
      | .response r =>
        match r.body with
        | none => w.console ++ [⟨"Error fetching todos:", .badJson⟩]
        | some _ => w.console) ∧
    ((createTodo API_URL net w).2.console =
      if w.ctl.title = "" ∨ w.ctl.date = "" then w.console
      else
        match net (postRequest API_URL w.ctl.title w.ctl.date) with
        | .transportFailure => w.console ++ [⟨"Error creating todo:", .network⟩]
        | .response r => if r.ok then (fetchTodos API_URL net w).2.console else w.console) ∧
    ((markDone API_URL net id w).2.console =
      match net (putRequest API_URL id) with
      | .transportFailure => w.console ++ [⟨"Error marking todo as done:", .network⟩]
      | .response _ => (fetchTodos API_URL net w).2.console) ∧
    ((deleteTodo API_URL net id w).2.console =
      match net (deleteRequest API_URL id) with
      | .transportFailure => w.console ++ [⟨"Error deleting todo:", .network⟩]
      | .response _ => (fetchTodos API_URL net w).2.console) := by
  refine ⟨fetchTodos_console _ _ _, ?_, ?_, ?_⟩
  · rw [createTodo_run]
    by_cases he : w.ctl.title = "" ∨ w.ctl.date = ""
    · simp [he]
    · cases hp : net (postRequest API_URL w.ctl.title w.ctl.date) with
      | transportFailure => simp [he]
      | response r =>
        by_cases hok : r.ok = true
        · simp [he, hok, fetchTodos_console_append]
        · simp [he, hok]
  · rw [markDone_run]
    cases hp : net (putRequest API_URL id) with
    | transportFailure => simp
    | response r => simp [fetchTodos_console_append]
  · rw [deleteTodo_run]
    cases hp : net (deleteRequest API_URL id) with
    | transportFailure => simp
    | response r => simp [fetchTodos_console_append]

/-! ## Normal completion, and the page afterwards -/

/-- C9, as stated, fails for a wrongly shaped body: the operation itself returns normally,
but the state it leaves cannot be rendered. From a mounted page showing one task, a GET
answered with `7` (or with `{"error": "boom"}`) leaves a list on which `todos.map` throws,
and the component unmounts. A next `fetchTodos` against a service answering `[]` would
install `[]` if its handler ran from that state, but it cannot be started: the page is
what it was. -/
theorem wrong_shape_unmounts_page :
    (Page.commit milkWorld).mounted = true ∧
    (fetchTodos "http://api" (netAlways (.response ⟨200, some (.num 7)⟩)) milkWorld).1 = .ok () ∧
    (Page.start "http://api" (netAlways (.response ⟨200, some (.num 7)⟩)) .fetchAll
      (Page.commit milkWorld)).mounted = false ∧
    (Page.start "http://api" (netAlways (.response ⟨200, some (.obj [("error", .str "boom")])⟩))
      .fetchAll (Page.commit milkWorld)).mounted = false ∧
    (Page.start "http://api" (netAlways (.response ⟨200, some (.arr [])⟩)) .fetchAll
      (Page.start "http://api" (netAlways (.response ⟨200, some (.num 7)⟩)) .fetchAll
        (Page.commit milkWorld))).world.ctl.todos = .num 7 ∧
    (fetchTodos "http://api" (netAlways (.response ⟨200, some (.arr [])⟩))
      (Page.start "http://api" (netAlways (.response ⟨200, some (.num 7)⟩)) .fetchAll
        (Page.commit milkWorld)).world).2.ctl.todos = .arr [] :=
  ⟨rfl, rfl, rfl, rfl, rfl, rfl⟩

/-- C9, amended. Whatever the service does, each of the four operations returns normally
(nothing is thrown to the caller) and leaves no unhandled rejection behind, the `fetchTodos`
started without `await` included. If the component was mounted and the GET failed in
transport, had a body that does not parse, or had a body whose value (after `|| []`)
renders as a list, then the component is still mounted after the operation and any next
operation runs its handler from the state left behind; the status of no response matters.
If instead a GET was sent during the operation and its body parsed to a value that does not
render as a list, the component is unmounted after the operation and no next operation
runs. -/
theorem operations_complete_and_page_survives (API_URL : String)
    (net : Request → FetchOutcome) (op : Op) (w : World) :
    (op.run API_URL net w).1 = .ok () ∧
    (op.run API_URL net w).2.unhandled = w.unhandled ∧
    ((Page.commit w).mounted = true →
      (match net (getRequest API_URL) with
        | .transportFailure => True
        | .response r =>
          match r.body with
          | none => True
          | some v => (renderList (v.or (.arr []))).isOk = true) →
      (Page.start API_URL net op (Page.commit w)).mounted = true ∧
      ∀ (net2 : Request → FetchOutcome) (op2 : Op),
        Page.start API_URL net2 op2 (Page.start API_URL net op (Page.commit w)) =
          Page.commit (op2.run API_URL net2 (op.run API_URL net w).2).2) ∧
    (∀ (r : Response) (v : Json),
      (Page.commit w).mounted = true →
      net (getRequest API_URL) = .response r → r.body = some v →
      (renderList (v.or (.arr []))).isOk = false →
      getRequest API_URL ∈ ((op.run API_URL net w).2.sent.drop w.sent.length).map Sent.request →
      (Page.start API_URL net op (Page.commit w)).mounted = false ∧
      ∀ (net2 : Request → FetchOutcome) (op2 : Op),
        Page.start API_URL net2 op2 (Page.start API_URL net op (Page.commit w)) =
          Page.start API_URL net op (Page.commit w)) := by
  refine ⟨(run_ok API_URL net op w).1, (run_ok API_URL net op w).2, ?_, ?_⟩
  · intro hm hget
    have hm2 : (Page.start API_URL net op (Page.commit w)).mounted = true := by
      rw [Page.start, if_pos hm]
      simp only [Page.commit, render_isOk] at hm ⊢
      rcases run_todos_cases API_URL net op w with h | ⟨h, _⟩
      · rw [h]; exact hm
      · rw [h, fetchTodos_todos]
        cases hn : net (getRequest API_URL) with
        | transportFailure => exact hm
        | response r =>
          cases hb : r.body with
          | none => simpa [hb] using hm
          | some v => simpa [hn, hb] using hget
    refine ⟨hm2, fun net2 op2 => ?_⟩
    rw [Page.start, if_pos hm2, Page.start, if_pos hm]
    rfl
  · intro r v hm hn hb hbad hsent
    have hm2 : (Page.start API_URL net op (Page.commit w)).mounted = false := by
      rw [Page.start, if_pos hm]
      simp only [Page.commit, render_isOk]
      rw [run_todos_of_get_sent API_URL net op w hsent, fetchTodos_todos, hn]
      simpa [hb] using hbad
    refine ⟨hm2, fun net2 op2 => ?_⟩
    rw [Page.start, if_neg (by simp [hm2])]

/-- C9 at a page showing one task: `markDone` with a rejected PUT, and `fetchTodos` with a
500 whose body is not JSON, both leave the component mounted, and a next operation runs. -/
theorem operations_complete_and_page_survives_witness :
    (Page.commit milkWorld).mounted = true ∧
    (Page.start "http://api" (netAlways .transportFailure) (.completeTask "1")
      (Page.commit milkWorld)).mounted = true ∧
    (Page.start "http://api" (netAlways (.response ⟨500, none⟩)) .fetchAll
      (Page.commit milkWorld)).mounted = true ∧
    (Page.start "http://api" (netAlways (.response ⟨200, some (.arr [])⟩)) .fetchAll
      (Page.start "http://api" (netAlways (.response ⟨500, none⟩)) .fetchAll
        (Page.commit milkWorld))).world.ctl.todos = .arr [] :=
  ⟨rfl,
    ((operations_complete_and_page_survives "http://api" (netAlways .transportFailure)
      (.completeTask "1") milkWorld).2.2.1 rfl trivial).1,
    ((operations_complete_and_page_survives "http://api" (netAlways (.response ⟨500, none⟩))
      .fetchAll milkWorld).2.2.1 rfl trivial).1,
    by
      rw [((operations_complete_and_page_survives "http://api"
        (netAlways (.response ⟨500, none⟩)) .fetchAll milkWorld).2.2.1 rfl trivial).2
        (netAlways (.response ⟨200, some (.arr [])⟩)) .fetchAll]
      rfl⟩

/-! ## The loading flag -/

/-- C10. With a non-empty draft, `createTodo` sends its POST with `loading` already true
(the handler is then suspended until the request settles), and once `createTodo` has
returned `loading` is false and the submit control is enabled, whatever the outcome.
`fetchTodos`, `markDone` and `deleteTodo` leave `loading` as it was, and the submit control
is disabled exactly when `loading` is true. -/
theorem createTodo_loading (API_URL : String) (net : Request → FetchOutcome) (w : World)
    (ht : w.ctl.title ≠ "") (hd : w.ctl.date ≠ "") :
    (∃ rest, (createTodo API_URL net w).2.sent =
      w.sent ++ ⟨postRequest API_URL w.ctl.title w.ctl.date, { w.ctl with loading := true }⟩ ::
        rest) ∧
    (createTodo API_URL net w).1 = .ok () ∧
    (createTodo API_URL net w).2.ctl.loading = false ∧
    submitDisabled (createTodo API_URL net w).2.ctl = false ∧
    (fetchTodos API_URL net w).2.ctl.loading = w.ctl.loading ∧
    (∀ id, (markDone API_URL net id w).2.ctl.loading = w.ctl.loading) ∧
    (∀ id, (deleteTodo API_URL net id w).2.ctl.loading = w.ctl.loading) ∧
    (∀ c : Ctl, submitDisabled c = true ↔ c.loading = true) := by
  refine ⟨?_, ?_, ?_, ?_, fetchTodos_loading _ _ _, ?_, ?_, fun c => Iff.rfl⟩
  · rw [createTodo_run]
    cases hp : net (postRequest API_URL w.ctl.title w.ctl.date) with
    | transportFailure => exact ⟨[], by simp [ht, hd]⟩
    | response r =>
      by_cases hok : r.ok = true
      · exact ⟨[⟨getRequest API_URL, { w.ctl with title := "", date := "", loading := true }⟩],
          by simp [ht, hd, hok, fetchTodos_sent]⟩
      · exact ⟨[], by simp [ht, hd, hok]⟩
  · exact (run_ok API_URL net .createTask w).1
  · rw [createTodo_run]
    cases hp : net (postRequest API_URL w.ctl.title w.ctl.date) with
    | transportFailure => simp [ht, hd]
    | response r => by_cases hok : r.ok = true <;> simp [ht, hd, hok]
  · rw [createTodo_run]
    cases hp : net (postRequest API_URL w.ctl.title w.ctl.date) with
    | transportFailure => simp [ht, hd, submitDisabled]
    | response r => by_cases hok : r.ok = true <;> simp [ht, hd, hok, submitDisabled]
  · intro id
    rw [markDone_run]
    cases hp : net (putRequest API_URL id) with
    | transportFailure => rfl
    | response r => simp [fetchTodos_loading]
  · intro id
    rw [deleteTodo_run]
    cases hp : net (deleteRequest API_URL id) with
    | transportFailure => rfl
    | response r => simp [fetchTodos_loading]

/-- C10 at the draft "Buy milk" / "2024-05-01" with a service that fails every request in
transport: the POST goes out under `loading = true` and `loading` is false afterwards. -/
theorem createTodo_loading_witness :
    (milkWorld.ctl.title ≠ "" ∧ milkWorld.ctl.date ≠ "") ∧
    ((createTodo "http://api" (netAlways .transportFailure) milkWorld).2.sent.map
        (fun x => (x.request.method, x.during.loading)) = [(.POST, true)]) ∧
    (createTodo "http://api" (netAlways .transportFailure) milkWorld).2.ctl.loading = false :=
  ⟨⟨by decide, by decide⟩, rfl,
    (createTodo_loading "http://api" (netAlways .transportFailure) milkWorld (by decide)
      (by decide)).2.2.1⟩

end TodoApp

